import Mathlib

/-
Verification of the mlrwp_rnns repository against its specification.

The repository's batch-orchestration pipeline (Request Builder, Cost
Estimator, Batch Writer, Poller, Result Processor) is described in the
specification but its sources are not present in the checkout; those
components are modelled from the spec, as marked on each definition.
The Weights & Biases upload script (wandb/upload_to_wandb.py) and the
bidirectional-GRU module (NN.py) are embedded directly from their
sources.
-/

namespace Spec2Proof

namespace Batch

/-- Modelled from the spec: the missing Batch Poller / Result Processor
sources define a job status enumeration (section 4.5): `queued` and
`in_progress` continue the loop; `completed`, `failed`, `expired` and
`cancelled` are terminal. -/
inductive JobStatus where
  | queued
  | in_progress
  | completed
  | failed
  | expired
  | cancelled
  deriving DecidableEq, Repr

/-- Modelled from the spec: terminal states of the poll loop
(section 4.5). -/
def JobStatus.isTerminal : JobStatus → Bool
  | JobStatus.completed => true
  | JobStatus.failed => true
  | JobStatus.expired => true
  | JobStatus.cancelled => true
  | _ => false

/-- Modelled from the spec: a SourceItem's sanitized, length-capped safe
identifier used for correlation (section 3); the missing Request Builder
sources derive it from the filename stem. -/
structure SourceItem where
  safeId : String
  deriving DecidableEq, Repr

/-- Modelled from the spec: what the Extractor collaborator hands the
Request Builder for one item — plain text, or a list of base64-encoded
page images for items that are split into image chunks (section 4.1). -/
inductive Content where
  | text (s : String)
  | images (pages : List String)
  deriving DecidableEq, Repr

/-- Modelled from the spec: the Request Builder / Cost Estimator
configuration — minimum character threshold, chunk size, model and
endpoint, per-request output-token bound, characters-per-token ratio and
safety ceilings (sections 4.1 and 4.2). -/
structure BuilderConfig where
  minChars : Nat
  chunkSize : Nat
  modelName : String
  endpointUrl : String
  max_tokens : Nat
  charsPerToken : Nat
  inputTokenCeiling : Nat
  outputTokenCeiling : Nat
  promptTemplate : String
  deriving DecidableEq, Repr

/-- Modelled from the spec: one BatchRequestRecord (section 3): a
correlation identifier made of the item's safe identifier plus an
optional chunk-index suffix, the target endpoint, model name, message
payload and maximum-output-token bound. -/
structure BatchRequestRecord where
  base : String
  chunkIdx : Option Nat
  url : String
  modelName : String
  payload : List String
  max_tokens : Nat
  deriving DecidableEq, Repr

/-- The correlation identifier of a record: the safe identifier plus the
optional chunk-index suffix. -/
def recordCid (r : BatchRequestRecord) : String × Option Nat :=
  (r.base, r.chunkIdx)

/-- Modelled from the spec: number of fixed-size chunks the page list of
a large document is partitioned into (section 4.1). -/
def numChunks (chunkSize pages : Nat) : Nat :=
  (pages + chunkSize - 1) / chunkSize

/-- Modelled from the spec: build the requests for one SourceItem
(section 4.1).  Extraction failure is recorded as an (item, reason)
failure; text shorter than the minimum threshold is the soft failure
"insufficient text"; a text item yields one record with no chunk suffix;
an image item yields one record per fixed-size page chunk, each with its
chunk index. -/
def buildItem (cfg : BuilderConfig) (extract : SourceItem → Except String Content)
    (item : SourceItem) : List BatchRequestRecord ⊕ (SourceItem × String) :=
  match extract item with
  | Except.error e => Sum.inr (item, e)
  | Except.ok (Content.text s) =>
      if s.length < cfg.minChars then
        Sum.inr (item, insufficientText)
      else
        Sum.inl [⟨item.safeId, none, cfg.endpointUrl, cfg.modelName,
                  [cfg.promptTemplate ++ s], cfg.max_tokens⟩]
  | Except.ok (Content.images pages) =>
      Sum.inl ((List.range (numChunks cfg.chunkSize pages.length)).map fun k =>
        ⟨item.safeId, some k, cfg.endpointUrl, cfg.modelName,
         cfg.promptTemplate :: ((pages.drop (k * cfg.chunkSize)).take cfg.chunkSize),
         cfg.max_tokens⟩)
where
  insufficientText : String := "insufficient text"

/-- Modelled from the spec: the Request Builder over a list of
SourceItems (section 4.1): an ordered sequence of BatchRequestRecords
plus a list of (item, failure-reason) pairs; a bad item never aborts the
run. -/
def buildRequests (cfg : BuilderConfig) (extract : SourceItem → Except String Content) :
    List SourceItem → List BatchRequestRecord × List (SourceItem × String)
  | [] => ([], [])
  | item :: rest =>
      match buildItem cfg extract item with
      | Sum.inl recs =>
          (recs ++ (buildRequests cfg extract rest).1, (buildRequests cfg extract rest).2)
      | Sum.inr f =>
          ((buildRequests cfg extract rest).1, f :: (buildRequests cfg extract rest).2)

/-- Modelled from the spec: how many units one input item counts for —
a failed or text item counts once, a chunked image item counts once per
chunk it expands into (section 8, first testable property). -/
def consideredWeight (cfg : BuilderConfig) (extract : SourceItem → Except String Content)
    (item : SourceItem) : Nat :=
  match extract item with
  | Except.error _ => 1
  | Except.ok (Content.text _) => 1
  | Except.ok (Content.images pages) => numChunks cfg.chunkSize pages.length

/-- Total number of input items considered, with chunk expansion. -/
def consideredCount (cfg : BuilderConfig) (extract : SourceItem → Except String Content)
    (items : List SourceItem) : Nat :=
  (items.map (consideredWeight cfg extract)).sum

/-- Modelled from the spec: one ResultRecord of the downloaded output
file, keyed by the correlation identifier used at submission time
(section 3). -/
structure ResultRecord where
  custom_id : String
  content : String
  deriving DecidableEq, Repr

/-- Modelled from the spec: the Result Processor (section 4.6) as a
function from the observed job status, the downloaded result records and
the current set of output files to an exit code and the new set of
output files.  If the job is not in the `completed` state it fails fast:
non-zero exit, no partial writes, the filesystem it owns unchanged.
Otherwise it writes one new output file per record, named by the
record's identifier and a processing timestamp. -/
def processResults (status : JobStatus) (records : List ResultRecord)
    (timestamp : String) (outputFiles : List (String × String)) :
    Nat × List (String × String) :=
  if status ≠ JobStatus.completed then
    (1, outputFiles)
  else
    (0, outputFiles ++ records.map fun r =>
      (r.custom_id ++ "_summary_" ++ timestamp ++ ".md", r.content))

/-- Modelled from the spec: the Poller's loop (section 4.5) over the
sequence of statuses the remote system reports, one observation per
query.  On a non-terminal status it sleeps one interval and re-queries;
on `completed` it invokes the Result Processor once; on any other
terminal status it stops without invoking it.  Returns the number of
sleep intervals elapsed and the number of Result Processor
invocations. -/
def poll : List JobStatus → Nat × Nat
  | [] => (0, 0)
  | s :: rest =>
      if s = JobStatus.completed then (0, 1)
      else if s.isTerminal then (0, 0)
      else ((poll rest).1 + 1, (poll rest).2)

/-- Modelled from the spec: approximate input-token count from the total
input character count at a fixed characters-per-token ratio
(section 4.2). -/
def estimateInputTokens (totalChars charsPerToken : Nat) : Nat :=
  totalChars / charsPerToken

/-- Modelled from the spec: worst-case output-token count, requests
times the per-request maximum-output-token bound (section 4.2). -/
def estimateOutputTokens (numRequests maxTokensPerRequest : Nat) : Nat :=
  numRequests * maxTokensPerRequest

/-- Total input characters accumulated across the built requests. -/
def totalChars (records : List BatchRequestRecord) : Nat :=
  (records.map fun r => (r.payload.map String.length).sum).sum

/-- The printed cost-estimate line of a run. -/
def costEstimateLine (inTok outTok : Nat) : String :=
  "Estimated input tokens: " ++ toString inTok ++
    ", worst-case output tokens: " ++ toString outTok

/-- The printed threshold-violation line. -/
def thresholdViolationLine : String :=
  "Estimated tokens exceed configured ceiling"

/-- Modelled from the spec: the externally visible effects of one run of
the build/estimate/write/submit path (sections 4.1-4.4): BatchArtifact
files written, entries added to the logs directory, number of contacts
with the remote system, and lines printed. -/
structure RunEffects where
  batchFiles : List (List BatchRequestRecord)
  logEntries : List String
  remoteCalls : Nat
  printed : List String
  deriving DecidableEq, Repr

/-- Modelled from the spec: the build/estimate/write/submit pipeline
(sections 4.1-4.4).  Requests are built, the cost estimate is computed
and printed; in dry-run mode the run then exits 0 having written no
BatchArtifact, added no logs-directory entry and never contacted the
remote system.  Otherwise a threshold violation aborts non-zero before
writing unless forced; a normal run writes the artifact (plus an error
log when there are failures) and submits it to the remote system. -/
def runPipeline (cfg : BuilderConfig) (extract : SourceItem → Except String Content)
    (items : List SourceItem) (dryRun force : Bool) : RunEffects × Nat :=
  let built := buildRequests cfg extract items
  let inTok := estimateInputTokens (totalChars built.1) cfg.charsPerToken
  let outTok := estimateOutputTokens built.1.length cfg.max_tokens
  let estLine := costEstimateLine inTok outTok
  let violated := cfg.inputTokenCeiling < inTok ∨ cfg.outputTokenCeiling < outTok
  if dryRun then
    (⟨[], [], 0, [estLine]⟩, 0)
  else if violated ∧ force = false then
    (⟨[], [], 0, [estLine, thresholdViolationLine]⟩, 1)
  else
    (⟨[built.1],
      (if built.2.isEmpty then [] else ["error log"]),
      1, [estLine]⟩, 0)

end Batch

namespace Wandb

/-- One observable action of `wandb/upload_to_wandb.py`: a print from
the script itself, a process exit, a W&B login, a run initialization, a
chart log (`wandb.log` of an image) or an artifact upload
(`wandb.log_artifact`). -/
inductive Action where
  | print (s : String)
  | exit (code : Nat)
  | login (key : String)
  | initRun (project runName : String)
  | logImage (label : String) (file : String)
  | logArtifact (artifactName artifactType file : String)
  deriving DecidableEq, Repr

/-- `os.path.join(dir, file)` for the simple relative names the script
uses. -/
def path_join (dir file : String) : String :=
  dir ++ "/" ++ file

def word2vecName : String := "word2vec_text8_tiny_improved.txt"

def predictorName : String := "best_hn_predictor.pth"

def lossChartName : String := "loss_history.png"

def upvoteChartName : String := "upvote_predictor_training.png"

def projName : String := "twintowers_finetuning"

def runName : String := "twintowers-search"

def modelType : String := "model"

def word2vecArtifact : String := "word2vec-model"

def hnPredictorArtifact : String := "hn-predictor"

def lossChartLabel : String := "loss_chart"

def upvoteLabel : String := "upvote_training"

def uploadedW2vMsg : String := "Uploaded Word2Vec model: "

def uploadedPredictorMsg : String := "Uploaded HN predictor model: "

def completeMsg : String := "Upload to W&B complete!"

def usageMsg : String := "Usage: python upload_to_wandb.py YOUR_API_KEY MODEL_DIRECTORY"

/-- Embedding of `upload_model_to_wandb(model_dir)` from
`src/wandb/upload_to_wandb.py`.  The filesystem is the list `fs` of
existing file paths (`os.path.exists p` is `p ∈ fs`).  The function
initializes a run, logs the two charts if present, uploads the two model
files if present (printing a line for each), and always ends with the
completion print. -/
def upload_model_to_wandb (fs : List String) (model_dir : String) : List Action :=
  let word2vec_file := path_join model_dir word2vecName
  let predictor_file := path_join model_dir predictorName
  let loss_chart := path_join model_dir lossChartName
  let upvote_chart := path_join model_dir upvoteChartName
  [Action.initRun projName runName]
  ++ (if loss_chart ∈ fs then [Action.logImage lossChartLabel loss_chart] else [])
  ++ (if upvote_chart ∈ fs then [Action.logImage upvoteLabel upvote_chart] else [])
  ++ (if word2vec_file ∈ fs then
        [Action.logArtifact word2vecArtifact modelType word2vec_file,
         Action.print (uploadedW2vMsg ++ word2vec_file)]
      else [])
  ++ (if predictor_file ∈ fs then
        [Action.logArtifact hnPredictorArtifact modelType predictor_file,
         Action.print (uploadedPredictorMsg ++ predictor_file)]
      else [])
  ++ [Action.print completeMsg]

/-- Embedding of the `__main__` block of `src/wandb/upload_to_wandb.py`.
`argv` is `sys.argv` including the program name.  With fewer than three
elements (`len(sys.argv) < 3`) the script prints the usage message and
exits with code 1; otherwise it logs in with `sys.argv[1]` and uploads
from `sys.argv[2]`. -/
def script_main (fs : List String) : List String → List Action
  | _prog :: api_key :: model_dir :: _rest =>
      Action.login api_key :: upload_model_to_wandb fs model_dir
  | _ => [Action.print usageMsg, Action.exit 1]

/-- The text printed by the script itself: the print actions, in
order. -/
def printed_of : List Action → List String
  | [] => []
  | Action.print s :: rest => s :: printed_of rest
  | _ :: rest => printed_of rest

end Wandb

namespace NN

/-- `tensor.transpose(0, 1)` on a rank-3 tensor represented as an index
function: swaps the first two dimensions. -/
def transpose01 {α : Type} {n m p : Nat} (t : Fin n → Fin m → Fin p → α) :
    Fin m → Fin n → Fin p → α :=
  fun i j k => t j i k

/-- `tensor[:, j, :]`: select index `j` along the middle dimension of a
rank-3 tensor. -/
def index1 {α : Type} {n m p : Nat} (t : Fin n → Fin m → Fin p → α) (j : Fin m) :
    Fin n → Fin p → α :=
  fun i k => t i j k

/-- `torch.cat([a, b], dim=1)` on two rank-2 tensors with the same first
dimension. -/
def cat1 {α : Type} {n p q : Nat} (a : Fin n → Fin p → α) (b : Fin n → Fin q → α) :
    Fin n → Fin (p + q) → α :=
  fun i k =>
    if h : (k : Nat) < p then a i ⟨k, h⟩
    else b i ⟨(k : Nat) - p, by have hk := k.isLt; omega⟩

/-- Embedding of `BidirectionalGRU.forward` from `src/NN.py`.  The
underlying `nn.GRU` (bidirectional, `batch_first=True`) is the abstract
parameter `gru`, taking the padded embeddings `[B, L, E]` and the
per-sequence lengths and returning the final hidden-state tensor of
shape `[2*numLayers, B, Hd]`, laid out as PyTorch documents it: index
`2*l` is the final forward hidden state of layer `l` and index `2*l + 1`
its final backward hidden state.  The forward pass transposes the hidden
tensor to `[B, 2*numLayers, Hd]`, selects positions `-2` and `-1` along
dimension 1, and concatenates them along dimension 1. -/
def bidirectional_gru_forward {α : Type} (numLayers B L E Hd : Nat) (hL : 0 < numLayers)
    (gru : (Fin B → Fin L → Fin E → α) → (Fin B → Nat) →
           (Fin (2 * numLayers) → Fin B → Fin Hd → α))
    (embeddings : Fin B → Fin L → Fin E → α) (lengths : Fin B → Nat) :
    Fin B → Fin (Hd + Hd) → α :=
  let hidden := gru embeddings lengths
  let hiddenT := transpose01 hidden
  let last_forward := index1 hiddenT ⟨2 * numLayers - 2, by omega⟩
  let last_backward := index1 hiddenT ⟨2 * numLayers - 1, by omega⟩
  cat1 last_forward last_backward

/-- Embedding of the `dropout=dropout if num_layers > 1 else 0` argument
in `BidirectionalGRU.__init__` from `src/NN.py`: the dropout rate handed
to `nn.GRU`. -/
def gru_dropout_rate (num_layers : Nat) (dropout : Rat) : Rat :=
  if num_layers > 1 then dropout else 0

/-- A concrete one-layer GRU on a singleton batch, used to evaluate the
forward pass at a specific input: hidden state `d b k` is the direction
index `d`. -/
def constGru : (Fin 1 → Fin 1 → Fin 1 → Nat) → (Fin 1 → Nat) →
    (Fin (2 * 1) → Fin 1 → Fin 1 → Nat) :=
  fun _ _ d _ _ => (d : Nat)

/-- A concrete embedding tensor for evaluating the forward pass. -/
def constEmb : Fin 1 → Fin 1 → Fin 1 → Nat :=
  fun _ _ _ => 0

/-- A concrete lengths vector for evaluating the forward pass. -/
def oneLen : Fin 1 → Nat :=
  fun _ => 1

end NN

/-! ## Helper lemmas -/

namespace Batch

/-- Every record built for one item carries that item's safe identifier
as the base of its correlation identifier. -/
theorem buildItem_inl_base (cfg : BuilderConfig) (extract : SourceItem → Except String Content)
    (item : SourceItem) (recs : List BatchRequestRecord)
    (h : buildItem cfg extract item = Sum.inl recs) :
    ∀ r ∈ recs, r.base = item.safeId := by
  intro r hr
  cases hx : extract item with
  | error e => simp [buildItem, hx] at h
  | ok c =>
      cases c with
      | text s =>
          by_cases hlen : s.length < cfg.minChars
          · simp [buildItem, hx, hlen] at h
          · simp [buildItem, hx, hlen] at h
            subst h
            simp at hr
            subst hr
            rfl
      | images pages =>
          simp [buildItem, hx] at h
          subst h
          obtain ⟨k, _, rfl⟩ := List.mem_map.mp hr
          rfl

/-- The correlation identifiers of the records built for one item are
pairwise distinct: a text item yields a single record, and the chunk
records of an image item differ in their chunk index. -/
theorem buildItem_inl_cid_nodup (cfg : BuilderConfig) (extract : SourceItem → Except String Content)
    (item : SourceItem) (recs : List BatchRequestRecord)
    (h : buildItem cfg extract item = Sum.inl recs) :
    (recs.map recordCid).Nodup := by
  cases hx : extract item with
  | error e => simp [buildItem, hx] at h
  | ok c =>
      cases c with
      | text s =>
          by_cases hlen : s.length < cfg.minChars
          · simp [buildItem, hx, hlen] at h
          · simp [buildItem, hx, hlen] at h
            subst h
            simp
      | images pages =>
          simp [buildItem, hx] at h
          subst h
          rw [List.map_map]
          apply List.Nodup.map
          · intro a b hab
            simpa [recordCid] using hab
          · exact List.nodup_range _

/-- Every record built from a list of items carries the safe identifier
of one of those items. -/
theorem buildRequests_base_mem (cfg : BuilderConfig) (extract : SourceItem → Except String Content)
    (items : List SourceItem) :
    ∀ r ∈ (buildRequests cfg extract items).1, r.base ∈ items.map SourceItem.safeId := by
  induction items with
  | nil => simp [buildRequests]
  | cons item rest ih =>
      intro r hr
      rw [List.map_cons]
      cases hbi : buildItem cfg extract item with
      | inl recs =>
          simp only [buildRequests, hbi] at hr
          rcases List.mem_append.mp hr with hmem | hmem
          · rw [buildItem_inl_base cfg extract item recs hbi r hmem]
            exact List.mem_cons_self _ _
          · exact List.mem_cons_of_mem _ (ih r hmem)
      | inr f =>
          simp only [buildRequests, hbi] at hr
          exact List.mem_cons_of_mem _ (ih r hr)

/-- The number of records built for one item, or 1 when it fails,
matches its considered weight. -/
theorem buildItem_weight (cfg : BuilderConfig) (extract : SourceItem → Except String Content)
    (item : SourceItem) :
    (match buildItem cfg extract item with
     | Sum.inl recs => recs.length
     | Sum.inr _ => 1) = consideredWeight cfg extract item := by
  cases hx : extract item with
  | error e => simp [buildItem, consideredWeight, hx]
  | ok c =>
      cases c with
      | text s =>
          by_cases hlen : s.length < cfg.minChars
          · simp [buildItem, consideredWeight, hx, hlen]
          · simp [buildItem, consideredWeight, hx, hlen]
      | images pages =>
          simp [buildItem, consideredWeight, hx]

end Batch

/-! ## Claim theorems -/

namespace Batch

/-- C1 (amended): for every generated batch whose source items' derived
safe identifiers are pairwise distinct, the correlation identifiers of
the BatchRequestRecords written into a single BatchArtifact file are
pairwise distinct — including when multiple chunk records originate from
the same source item, whose identifiers differ by their chunk-index
suffix.  The distinctness hypothesis is necessary: the spec derives the
safe identifier by sanitizing and truncating the filename stem, and two
distinct files can collide on it (see the counterexample below). -/
theorem C1_correlation_ids_unique (cfg : BuilderConfig)
    (extract : SourceItem → Except String Content) (items : List SourceItem)
    (h : (items.map SourceItem.safeId).Nodup) :
    (((buildRequests cfg extract items).1).map recordCid).Nodup := by
  induction items with
  | nil => simp [buildRequests]
  | cons item rest ih =>
      rw [List.map_cons, List.nodup_cons] at h
      obtain ⟨hni, hrest⟩ := h
      cases hbi : buildItem cfg extract item with
      | inr f =>
          simp only [buildRequests, hbi]
          exact ih hrest
      | inl recs =>
          simp only [buildRequests, hbi]
          rw [List.map_append, List.nodup_append]
          refine ⟨buildItem_inl_cid_nodup cfg extract item recs hbi, ih hrest, ?_⟩
          intro x hx1 hx2
          obtain ⟨r, hr, rfl⟩ := List.mem_map.mp hx1
          obtain ⟨r2, hr2, hcid⟩ := List.mem_map.mp hx2
          have hb1 : r.base = item.safeId := buildItem_inl_base cfg extract item recs hbi r hr
          have hb2 : r2.base ∈ rest.map SourceItem.safeId :=
            buildRequests_base_mem cfg extract rest r2 hr2
          have hba : r2.base = r.base := by
            simpa [recordCid] using congrArg Prod.fst hcid
          apply hni
          rw [← hb1, ← hba]
          exact hb2

/-- Witness for C1: a concrete batch with one three-page image item
split into two chunks and one text item; the four correlation
identifiers are pairwise distinct. -/
theorem C1_correlation_ids_unique_witness :
    (((buildRequests ⟨3, 2, "gpt", "/v1/chat/completions", 500, 4, 1000000, 1000000, "Summarize: "⟩
        (fun i => if i.safeId = "doc" then Except.ok (Content.images ["p1", "p2", "p3"])
                  else Except.ok (Content.text ("hello world")))
        [⟨"doc"⟩, ⟨"note"⟩]).1).map recordCid).Nodup :=
  C1_correlation_ids_unique _ _ _ (by decide)

/-- Counterexample for C1 as stated: the claim asserts uniqueness for
every generated batch unconditionally, but two distinct source files
whose sanitized, truncated stems coincide — e.g. one named with a space
and one with an underscore, both deriving the safe identifier a_b —
yield two records with the same correlation identifier in one batch. -/
theorem C1_correlation_ids_unique_counterexample :
    ¬ (((buildRequests ⟨3, 2, "gpt", "/v1/chat/completions", 500, 4, 1000000, 1000000, "Summarize: "⟩
          (fun _ => Except.ok (Content.text ("plenty of text here")))
          [⟨"a_b"⟩, ⟨"a_b"⟩]).1).map recordCid).Nodup := by
  decide

/-- C2: for every list of SourceItems given to the Request Builder, the
number of BatchRequestRecords produced plus the number of recorded
(item, failure-reason) pairs equals the number of input items
considered, a multi-chunk item counting once per chunk record it
expands into. -/
theorem C2_records_plus_failures_count (cfg : BuilderConfig)
    (extract : SourceItem → Except String Content) (items : List SourceItem) :
    (buildRequests cfg extract items).1.length + (buildRequests cfg extract items).2.length
      = consideredCount cfg extract items := by
  induction items with
  | nil => rfl
  | cons item rest ih =>
      have hw := buildItem_weight cfg extract item
      simp only [consideredCount, List.map_cons, List.sum_cons]
      simp only [consideredCount] at ih
      cases hbi : buildItem cfg extract item with
      | inl recs =>
          rw [hbi] at hw
          simp only at hw
          simp only [buildRequests, hbi, List.length_append]
          omega
      | inr f =>
          rw [hbi] at hw
          simp only at hw
          simp only [buildRequests, hbi, List.length_cons]
          omega

/-- A poll loop that observes only non-terminal statuses and then a
terminal status other than `completed` sleeps once per non-terminal
observation and never invokes the Result Processor. -/
theorem poll_nonterminal_append : ∀ (ss : List JobStatus) (t : JobStatus),
    (∀ s ∈ ss, s.isTerminal = false) → t.isTerminal = true → t ≠ JobStatus.completed →
    poll (ss ++ [t]) = (ss.length, 0) := by
  intro ss
  induction ss with
  | nil =>
      intro t hss ht hne
      simp [poll, hne, ht]
  | cons s rest ih =>
      intro t hss ht hne
      have hs : s.isTerminal = false := hss s (List.mem_cons_self _ _)
      have hsc : s ≠ JobStatus.completed := by
        intro hEq
        rw [hEq] at hs
        simp [JobStatus.isTerminal] at hs
      have ih2 := ih t (fun x hx => hss x (List.mem_cons_of_mem _ hx)) ht hne
      simp [poll, hsc, hs, ih2]

/-- C3: when the Result Processor is invoked against a job whose status
is anything other than `completed`, it exits with a non-zero code and
writes zero output files: the filesystem state it owns is unchanged. -/
theorem C3_result_processor_fails_fast (status : JobStatus) (records : List ResultRecord)
    (timestamp : String) (outputFiles : List (String × String))
    (h : status ≠ JobStatus.completed) :
    processResults status records timestamp outputFiles = (1, outputFiles) := by
  simp [processResults, h]

/-- Witness for C3: a `failed` job with one downloaded record exits with
code 1 and leaves the (empty) output directory empty. -/
theorem C3_result_processor_fails_fast_witness :
    processResults JobStatus.failed [⟨"doc-1", "some output"⟩] "20240101" [] = (1, []) :=
  C3_result_processor_fails_fast _ _ _ _ (by decide)

/-- C4: a Poller run observing `in_progress`, `in_progress`,
`completed` invokes the Result Processor exactly once after exactly two
sleep intervals; a run reaching any terminal state other than
`completed` never invokes the Result Processor. -/
theorem C4_poller_invocations (ss : List JobStatus) (t : JobStatus)
    (hss : ∀ s ∈ ss, s.isTerminal = false)
    (ht : t.isTerminal = true) (hne : t ≠ JobStatus.completed) :
    poll [JobStatus.in_progress, JobStatus.in_progress, JobStatus.completed] = (2, 1)
      ∧ (poll (ss ++ [t])).2 = 0 := by
  refine ⟨rfl, ?_⟩
  rw [poll_nonterminal_append ss t hss ht hne]

/-- Witness for C4: the `in_progress`, `in_progress`, `completed` run
gives two sleeps and one invocation, and an `in_progress` then `failed`
run gives zero invocations. -/
theorem C4_poller_invocations_witness :
    poll [JobStatus.in_progress, JobStatus.in_progress, JobStatus.completed] = (2, 1)
      ∧ (poll ([JobStatus.in_progress] ++ [JobStatus.failed])).2 = 0 :=
  C4_poller_invocations [JobStatus.in_progress] JobStatus.failed (by decide) (by decide)
    (by decide)

/-- C5: a dry-run invocation creates no BatchArtifact file, adds no
entry to the logs directory and never contacts the remote system; its
only output is the printed cost estimate, and it exits 0. -/
theorem C5_dry_run_frame (cfg : BuilderConfig) (extract : SourceItem → Except String Content)
    (items : List SourceItem) (force : Bool) :
    (runPipeline cfg extract items true force).1.batchFiles = []
      ∧ (runPipeline cfg extract items true force).1.logEntries = []
      ∧ (runPipeline cfg extract items true force).1.remoteCalls = 0
      ∧ (runPipeline cfg extract items true force).1.printed
          = [costEstimateLine
              (estimateInputTokens (totalChars (buildRequests cfg extract items).1)
                cfg.charsPerToken)
              (estimateOutputTokens (buildRequests cfg extract items).1.length cfg.max_tokens)]
      ∧ (runPipeline cfg extract items true force).2 = 0 := by
  simp [runPipeline]

end Batch

/-- Membership in an if-then-else whose else branch is the empty list
gives the condition together with membership in the then branch. -/
theorem mem_if_nil {α : Type} {c : Prop} [Decidable c] {l : List α} {x : α}
    (h : x ∈ if c then l else []) : c ∧ x ∈ l := by
  by_cases hc : c
  · exact ⟨hc, by rwa [if_pos hc] at h⟩
  · rw [if_neg hc] at h
    exact absurd h (List.not_mem_nil x)

/-- The last element of a list ending in a singleton append. -/
theorem getLast?_append_last {α : Type} (l : List α) (a : α) :
    (l ++ [a]).getLast? = some a := by
  rw [List.getLast?_append_cons]
  rfl

namespace Wandb

/-- C6: invoking the upload script with fewer than two positional
arguments (`len(sys.argv) < 3`) prints the usage message and exits with
code 1 before any work: the action trace is exactly the usage print and
the non-zero exit, with no login, run initialization or upload. -/
theorem C6_usage_exit (fs : List String) (argv : List String) (h : argv.length < 3) :
    script_main fs argv = [Action.print usageMsg, Action.exit 1] := by
  rcases argv with _ | ⟨a, _ | ⟨b, _ | ⟨c, rest⟩⟩⟩
  · rfl
  · rfl
  · rfl
  · exfalso
    simp only [List.length_cons] at h
    omega

/-- Witness for C6: a bare invocation with only the program name. -/
theorem C6_usage_exit_witness :
    script_main [] ["upload_to_wandb.py"] = [Action.print usageMsg, Action.exit 1] :=
  C6_usage_exit [] ["upload_to_wandb.py"] (by decide)

/-- C7: the API token never reaches the script's own printed output:
two invocations differing only in the API-key argument, with the same
remaining arguments and the same filesystem contents, print identical
text. -/
theorem C7_printed_independent_of_key (fs : List String) (prog key1 key2 : String)
    (rest : List String) :
    printed_of (script_main fs (prog :: key1 :: rest))
      = printed_of (script_main fs (prog :: key2 :: rest)) := by
  cases rest with
  | nil => rfl
  | cons model_dir more => rfl

/-- C8: `upload_model_to_wandb` always runs to completion, ending with
the completion print; every artifact it uploads is one of the two fixed
model filenames joined to the model directory and exists on the
filesystem; every chart it logs is one of the two fixed chart filenames
joined to the model directory and exists on the filesystem.  In
particular no file outside the four fixed names is ever uploaded or
logged, and any pattern of missing files only drops the corresponding
actions. -/
theorem C8_upload_considers_four_files (fs : List String) (model_dir : String) :
    ((upload_model_to_wandb fs model_dir).getLast? = some (Action.print completeMsg))
    ∧ (∀ n t f, Action.logArtifact n t f ∈ upload_model_to_wandb fs model_dir →
        f ∈ fs ∧ (f = path_join model_dir word2vecName ∨ f = path_join model_dir predictorName))
    ∧ (∀ lab f, Action.logImage lab f ∈ upload_model_to_wandb fs model_dir →
        f ∈ fs ∧ (f = path_join model_dir lossChartName ∨ f = path_join model_dir upvoteChartName)) := by
  refine ⟨?_, ?_, ?_⟩
  · simp only [upload_model_to_wandb]
    exact getLast?_append_last _ _
  · intro n t f hmem
    simp only [upload_model_to_wandb, List.mem_append, List.mem_cons,
      List.not_mem_nil, or_false, or_assoc] at hmem
    rcases hmem with h | h | h | h | h | h
    · exact absurd h (by simp)
    · obtain ⟨hc, hx⟩ := mem_if_nil h
      simp at hx
    · obtain ⟨hc, hx⟩ := mem_if_nil h
      simp at hx
    · obtain ⟨hc, hx⟩ := mem_if_nil h
      simp only [List.mem_cons, List.not_mem_nil, or_false] at hx
      rcases hx with hx | hx
      · obtain ⟨hn, ht, hf⟩ := Action.logArtifact.inj hx
        subst hf
        exact ⟨hc, Or.inl rfl⟩
      · exact absurd hx (by simp)
    · obtain ⟨hc, hx⟩ := mem_if_nil h
      simp only [List.mem_cons, List.not_mem_nil, or_false] at hx
      rcases hx with hx | hx
      · obtain ⟨hn, ht, hf⟩ := Action.logArtifact.inj hx
        subst hf
        exact ⟨hc, Or.inr rfl⟩
      · exact absurd hx (by simp)
    · exact absurd h (by simp)
  · intro lab f hmem
    simp only [upload_model_to_wandb, List.mem_append, List.mem_cons,
      List.not_mem_nil, or_false, or_assoc] at hmem
    rcases hmem with h | h | h | h | h | h
    · exact absurd h (by simp)
    · obtain ⟨hc, hx⟩ := mem_if_nil h
      simp only [List.mem_cons, List.not_mem_nil, or_false] at hx
      obtain ⟨hl, hf⟩ := Action.logImage.inj hx
      subst hf
      exact ⟨hc, Or.inl rfl⟩
    · obtain ⟨hc, hx⟩ := mem_if_nil h
      simp only [List.mem_cons, List.not_mem_nil, or_false] at hx
      obtain ⟨hl, hf⟩ := Action.logImage.inj hx
      subst hf
      exact ⟨hc, Or.inr rfl⟩
    · obtain ⟨hc, hx⟩ := mem_if_nil h
      simp at hx
    · obtain ⟨hc, hx⟩ := mem_if_nil h
      simp at hx
    · exact absurd h (by simp)

/-- Witness for C8: with only the Word2Vec model file present, the
artifact that gets uploaded is that existing file and it is one of the
two fixed model filenames. -/
theorem C8_upload_considers_four_files_witness :
    path_join ("models") word2vecName ∈ [path_join ("models") word2vecName]
      ∧ (path_join ("models") word2vecName = path_join ("models") word2vecName
         ∨ path_join ("models") word2vecName = path_join ("models") predictorName) :=
  (C8_upload_considers_four_files [path_join ("models") word2vecName] ("models")).2.1
    word2vecArtifact modelType (path_join ("models") word2vecName) (by decide)

end Wandb

namespace NN

/-- C9: for every batch of `B` padded sequences of length `L` with
embedding dimension `E` and lengths between 1 and `L`, the forward pass
of `BidirectionalGRU` returns a tensor of shape `[B, 2*hidden_dim]`
(here `Fin B → Fin (Hd + Hd) → α`) whose row `b` is the concatenation of
the last layer's final forward hidden state (GRU hidden index
`2*numLayers - 2`) followed by its final backward hidden state (GRU
hidden index `2*numLayers - 1`). -/
theorem C9_forward_concatenates_last_layer_states (α : Type) (numLayers B L E Hd : Nat)
    (hL : 0 < numLayers)
    (gru : (Fin B → Fin L → Fin E → α) → (Fin B → Nat) →
           (Fin (2 * numLayers) → Fin B → Fin Hd → α))
    (embeddings : Fin B → Fin L → Fin E → α) (lengths : Fin B → Nat)
    (hlen : ∀ b, 1 ≤ lengths b ∧ lengths b ≤ L)
    (b : Fin B) (j : Fin (Hd + Hd)) :
    bidirectional_gru_forward numLayers B L E Hd hL gru embeddings lengths b j
      = if h : (j : Nat) < Hd then
          gru embeddings lengths ⟨2 * numLayers - 2, by omega⟩ b ⟨j, h⟩
        else
          gru embeddings lengths ⟨2 * numLayers - 1, by omega⟩ b
            ⟨(j : Nat) - Hd, by have hj := j.isLt; omega⟩ := by
  rfl

/-- Witness for C9: on a singleton batch with one layer, position 0 of
the output row is the final forward state (hidden index 0) and position
1 the final backward state (hidden index 1). -/
theorem C9_forward_concatenates_last_layer_states_witness :
    bidirectional_gru_forward 1 1 1 1 1 Nat.one_pos constGru constEmb oneLen
        ⟨0, Nat.one_pos⟩ ⟨1, by omega⟩ = 1 := by
  have h := C9_forward_concatenates_last_layer_states Nat 1 1 1 1 1 Nat.one_pos
    constGru constEmb oneLen (fun b => ⟨le_refl 1, le_refl 1⟩) ⟨0, Nat.one_pos⟩ ⟨1, by omega⟩
  simpa [constGru] using h

/-- C10: a `BidirectionalGRU` constructed with `num_layers = 1` passes
dropout rate 0 to the underlying GRU whatever dropout argument is
supplied; with `num_layers > 1` the supplied dropout takes effect. -/
theorem C10_dropout_zero_for_single_layer (dropout : Rat) (n : Nat) (hn : 1 < n) :
    gru_dropout_rate 1 dropout = 0 ∧ gru_dropout_rate n dropout = dropout := by
  constructor
  · rfl
  · simp [gru_dropout_rate, hn]

/-- Witness for C10: dropout 3/4 is suppressed at one layer and kept at
two layers. -/
theorem C10_dropout_zero_for_single_layer_witness :
    gru_dropout_rate 1 (3 / 4) = 0 ∧ gru_dropout_rate 2 (3 / 4) = 3 / 4 :=
  C10_dropout_zero_for_single_layer (3 / 4) 2 (by decide)

end NN

end Spec2Proof
